import Mathlib

/-!
Shallow embedding of the Tornado AC custom component
(`custom_components/tornado`): the per-device timer state machine of
`TornadoTimerSensor` (sensor.py), the sleep-mode switch (switch.py) and
the timer-duration number entity (number.py), together with the
coordinator-update (observer) paths of all three.

Timestamps are modelled as integer seconds (`Int`); `datetime.now()`
becomes an explicit `now : Int` argument.  The Home Assistant
`async_track_time_interval` registration is modelled by an explicit
scheduler state holding the set of live registration handles, so that
registration creation and release are observable values.  Remote
`set_device_params` calls are modelled as emitted `ApiCall` values.
-/

namespace Tornado

/-- Device parameter mapping, e.g. `{"ac_slp": 1}` (`params` dict in the source). -/
abbrev Params := List (String × Int)

/-- Opaque device identifier (`endpointId` in the source). -/
abbrev DeviceId := String

/-- Lookup of a key in a params dict with a default, modelling `dict.get(key, dflt)`. -/
def getParam (p : Params) (key : String) (dflt : Int) : Int :=
  match p.lookup key with
  | some v => v
  | none => dflt

/-- The `_attr_extra_state_attributes` dict of `TornadoTimerSensor`. -/
structure TimerAttrs where
  timer_active : Bool
  timer_duration : Option Int
  timer_start_time : Option Int
  timer_end_time : Option Int
  target_action : String
  sleep_mode_active : Bool
deriving DecidableEq, Repr

/-- The mutable state of a `TornadoTimerSensor` entity: the private timer
fields, the recurring-update registration handle, the published native value,
the extra state attributes and the availability flag. -/
structure SensorState where
  timer_start_time : Option Int
  timer_duration : Option Int
  timer_end_time : Option Int
  target_action : String
  update_timer_handle : Option Nat
  native_value : Int
  attrs : TimerAttrs
  available : Bool
deriving DecidableEq, Repr

/-- Scheduler state: the next fresh handle and the list of live recurring
registrations (models the `async_track_time_interval` registrations). -/
structure Sched where
  next : Nat
  live : List Nat
deriving DecidableEq, Repr

/-- Registering a recurring callback: returns a fresh handle and adds it to
the live set (models `async_track_time_interval(...)`). -/
def async_track_time_interval (sc : Sched) : Nat × Sched :=
  (sc.next, { next := sc.next + 1, live := sc.next :: sc.live })

/-- Releasing a registration handle (models calling the stored cancel
callable `self._update_timer_handle()`). -/
def cancelHandle (sc : Sched) (h : Nat) : Sched :=
  { sc with live := sc.live.erase h }

/-- A remote call issued through `coordinator.api.set_device_params`. -/
inductive ApiCall where
  | setParams (params : Params)
deriving DecidableEq, Repr

/-- Parameter delta implied by a target action, per `_execute_timer_action`:
`"turn_off"` sends `{"pwr": 0}`, `"sleep_mode"` sends `{"ac_slp": 1}`, any
other action string sends nothing. -/
def actionParams (action : String) : Option Params :=
  if action = "turn_off" then some [("pwr", 0)]
  else if action = "sleep_mode" then some [("ac_slp", 1)]
  else none

/-- Result of one timer-state evaluation: the updated entity state, the
updated scheduler, and the remote calls requested by any task spawned. -/
structure TickResult where
  st : SensorState
  sc : Sched
  calls : List ApiCall
deriving DecidableEq, Repr

/-- Embedding of `TornadoTimerSensor._update_timer_state`.  With no end time
set it publishes 0 / inactive; past the deadline it spawns
`_execute_timer_action` (recorded in `calls`), clears the timer fields and
releases the recurring registration; before the deadline it publishes the
truncated remaining minutes `max(0, int((end - now).total_seconds() / 60))`. -/
def updateTimerState (st : SensorState) (sc : Sched) (now : Int) : TickResult :=
  match st.timer_end_time with
  | none =>
      { st := { st with
          native_value := 0,
          attrs := { st.attrs with
            timer_active := false, timer_duration := none,
            timer_start_time := none, timer_end_time := none } },
        sc := sc, calls := [] }
  | some endTime =>
      if endTime ≤ now then
        let calls : List ApiCall :=
          match actionParams st.target_action with
          | some p => [ApiCall.setParams p]
          | none => []
        let cleared : SensorState :=
          { st with
            timer_start_time := none, timer_duration := none,
            timer_end_time := none, native_value := 0,
            attrs := { st.attrs with
              timer_active := false, timer_duration := none,
              timer_start_time := none, timer_end_time := none } }
        match st.update_timer_handle with
        | some h =>
            { st := { cleared with update_timer_handle := none },
              sc := cancelHandle sc h, calls := calls }
        | none => { st := cleared, sc := sc, calls := calls }
      else
        { st := { st with
            native_value := max 0 ((endTime - now).tdiv 60),
            attrs := { st.attrs with
              timer_active := true,
              timer_duration := st.timer_duration,
              timer_start_time := st.timer_start_time,
              timer_end_time := some endTime } },
          sc := sc, calls := [] }

/-- Outcome of the remote `set_device_params` call made by the spawned
expiry task. -/
inductive RemoteResult where
  | ok
  | error (msg : String)
deriving DecidableEq, Repr

/-- Embedding of `TornadoTimerSensor._execute_timer_action`: issues the
remote call for the current target action; an exception from the remote call
is caught and logged (returned as the `List String` log component) and the
method mutates no entity state, so the state component is returned unchanged
for every outcome. -/
def executeTimerAction (st : SensorState) (outcome : RemoteResult) :
    SensorState × List String :=
  match actionParams st.target_action with
  | some _ =>
      match outcome with
      | RemoteResult.ok => (st, [])
      | RemoteResult.error m => (st, ["Error executing timer action: " ++ m])
  | none => (st, [])

/-- One full expiry-capable tick followed by the spawned expiry task running
with the given remote outcome: the pair of resulting entity state and
scheduler state. -/
def tickThenExecute (st : SensorState) (sc : Sched) (now : Int)
    (outcome : RemoteResult) : SensorState × Sched :=
  ((executeTimerAction (updateTimerState st sc now).st outcome).1,
    (updateTimerState st sc now).sc)

/-- Embedding of `TornadoTimerSensor.async_cancel_timer`: release the
registration handle if present, clear the three private timer fields, then
run `_update_timer_state` (which, with no end time, publishes 0/inactive). -/
def cancelTimer (st : SensorState) (sc : Sched) (now : Int) : TickResult :=
  let p : SensorState × Sched :=
    match st.update_timer_handle with
    | some h => ({ st with update_timer_handle := none }, cancelHandle sc h)
    | none => (st, sc)
  let st2 : SensorState :=
    { p.1 with
      timer_start_time := none, timer_duration := none,
      timer_end_time := none }
  updateTimerState st2 p.2 now

/-- Embedding of `TornadoTimerSensor.async_set_timer`: first an unconditional
`async_cancel_timer`; a duration `<= 0` stops there (no error is signalled);
otherwise the timer fields are set (`deadline = now + durationMinutes`
converted to seconds), a new recurring registration is created, and
`_update_timer_state` runs immediately. -/
def setTimer (st : SensorState) (sc : Sched) (durationMinutes : Int)
    (action : String) (now : Int) : TickResult :=
  let c := cancelTimer st sc now
  if durationMinutes ≤ 0 then c
  else
    let st2 : SensorState :=
      { c.st with
        timer_start_time := some now,
        timer_duration := some durationMinutes,
        timer_end_time := some (now + durationMinutes * 60),
        target_action := action }
    let hs := async_track_time_interval c.sc
    let st3 : SensorState := { st2 with update_timer_handle := some hs.1 }
    updateTimerState st3 hs.2 now

/-- Embedding of `TornadoTimerSensor.async_will_remove_from_hass`: release
the registration handle if present; nothing else is touched. -/
def willRemoveFromHass (st : SensorState) (sc : Sched) : SensorState × Sched :=
  match st.update_timer_handle with
  | some h => ({ st with update_timer_handle := none }, cancelHandle sc h)
  | none => (st, sc)

/-- The coordinator's snapshot store: `none` models `coordinator.data` being
`None`; `some l` models a dict with entries `l`. -/
abbrev Store := Option (List (DeviceId × Params))

/-- Embedding of the `_device` property shared by the three entities:
`None` when `coordinator.data` is falsy (absent or empty), otherwise
`coordinator.data.get(device_id)`. -/
def getDevice (data : Store) (id : DeviceId) : Option Params :=
  match data with
  | none => none
  | some l => if l.isEmpty then none else l.lookup id

/-- Embedding of `TornadoTimerSensor._handle_coordinator_update`: with no
device entry, only availability is dropped; with a device entry, the
sleep-mode attribute is recomputed from `params["ac_slp"]`,
`_update_timer_state` runs, and the entity is marked available. -/
def sensorHandleCoordinatorUpdate (data : Store) (id : DeviceId)
    (st : SensorState) (sc : Sched) (now : Int) : TickResult :=
  match getDevice data id with
  | none => { st := { st with available := false }, sc := sc, calls := [] }
  | some p =>
      let st1 : SensorState :=
        { st with attrs :=
          { st.attrs with sleep_mode_active := getParam p "ac_slp" 0 != 0 } }
      let r := updateTimerState st1 sc now
      { r with st := { r.st with available := true } }

/-- The mutable state of a `TornadoSleepModeSwitch` entity. -/
structure SwitchState where
  is_on : Bool
  available : Bool
deriving DecidableEq, Repr

/-- Embedding of `TornadoSleepModeSwitch._handle_coordinator_update`. -/
def switchHandleCoordinatorUpdate (data : Store) (id : DeviceId)
    (st : SwitchState) : SwitchState :=
  match getDevice data id with
  | none => { st with available := false }
  | some p => { is_on := getParam p "ac_slp" 0 != 0, available := true }

/-- The mutable state of a `TornadoTimerNumber` entity. -/
structure NumberState where
  native_value : Int
  available : Bool
deriving DecidableEq, Repr

/-- Embedding of `TornadoTimerNumber._handle_coordinator_update`: only the
availability flag is recomputed. -/
def numberHandleCoordinatorUpdate (data : Store) (id : DeviceId)
    (st : NumberState) : NumberState :=
  match getDevice data id with
  | none => { st with available := false }
  | some _ => { st with available := true }

/-- A sensor state with all timer fields cleared, the handle released and
the published value reset, as produced by a completed cancel or expiry. -/
def clearedOf (st : SensorState) : SensorState :=
  { st with
    timer_start_time := none, timer_duration := none, timer_end_time := none,
    update_timer_handle := none, native_value := 0,
    attrs := { st.attrs with
      timer_active := false, timer_duration := none,
      timer_start_time := none, timer_end_time := none } }

/-- The scheduler after releasing the state's registration handle, if any. -/
def releasedOf (st : SensorState) (sc : Sched) : Sched :=
  match st.update_timer_handle with
  | some h => cancelHandle sc h
  | none => sc

/-- The single-live-handle invariant: the scheduler's live registrations are
exactly the handle stored in the sensor state (so at most one). -/
abbrev HandleInv (st : SensorState) (sc : Sched) : Prop :=
  sc.live = st.update_timer_handle.toList

/-- The Idle shape of the published timer state: no deadline, no start, no
duration, value 0, inactive. -/
abbrev IsIdleState (st : SensorState) : Prop :=
  st.timer_end_time = none ∧ st.timer_start_time = none ∧
  st.timer_duration = none ∧ st.native_value = 0 ∧
  st.attrs.timer_active = false

/-- A sensor state after the deadline-free branch of `_update_timer_state`:
published value reset and attributes idled, private fields untouched. -/
def idledOf (st : SensorState) : SensorState :=
  { st with
    native_value := 0,
    attrs := { st.attrs with
      timer_active := false, timer_duration := none,
      timer_start_time := none, timer_end_time := none } }

/-- The remote calls requested by the expiry task for a given state. -/
def expiryCalls (st : SensorState) : List ApiCall :=
  match actionParams st.target_action with
  | some p => [ApiCall.setParams p]
  | none => []

/-- A freshly initialised timer sensor state (the `__init__` values, with
time 0 standing for the construction instant). -/
def idle0 : SensorState where
  timer_start_time := none
  timer_duration := none
  timer_end_time := none
  target_action := "turn_off"
  update_timer_handle := none
  native_value := 0
  attrs := { timer_active := false
             timer_duration := none
             timer_start_time := none
             timer_end_time := none
             target_action := "turn_off"
             sleep_mode_active := false }
  available := true

/-- A fresh scheduler with no live registrations. -/
def sched0 : Sched := { next := 0, live := [] }

/-- The state reached by `arm(5, turn_off)` at time 0 from `idle0`:
armed with deadline 300 seconds and a live registration handle 0. -/
def armed1 : SensorState where
  timer_start_time := some 0
  timer_duration := some 5
  timer_end_time := some 300
  target_action := "turn_off"
  update_timer_handle := some 0
  native_value := 5
  attrs := { timer_active := true
             timer_duration := some 5
             timer_start_time := some 0
             timer_end_time := some 300
             target_action := "turn_off"
             sleep_mode_active := false }
  available := true

/-- The scheduler matching `armed1`: handle 0 live, next fresh handle 1. -/
def sched1 : Sched := { next := 1, live := [0] }

/-- A concrete snapshot store holding a single device `dev1` whose sleep
mode parameter is on. -/
def store1 : Store := some [("dev1", [("ac_slp", 1)])]

/-- The state after a successful arm at `now` for `d > 0` minutes with
action `a`, starting from `st` whose previous registration was released. -/
def armedOf (st : SensorState) (sc : Sched) (d : Int) (a : String)
    (now : Int) : SensorState :=
  { st with
    timer_start_time := some now,
    timer_duration := some d,
    timer_end_time := some (now + d * 60),
    target_action := a,
    update_timer_handle := some (releasedOf st sc).next,
    native_value := d,
    attrs := { st.attrs with
      timer_active := true,
      timer_duration := some d,
      timer_start_time := some now,
      timer_end_time := some (now + d * 60) } }

/-- The scheduler after a successful arm from `st, sc`: the previous
registration released, one fresh registration created. -/
def armedSched (st : SensorState) (sc : Sched) : Sched :=
  { next := (releasedOf st sc).next + 1,
    live := (releasedOf st sc).next :: (releasedOf st sc).live }

lemma updateTimerState_none (st : SensorState) (sc : Sched) (now : Int)
    (he : st.timer_end_time = none) :
    updateTimerState st sc now = ⟨idledOf st, sc, []⟩ := by
  obtain ⟨ts, td, te, ta, h, nv, a0, av⟩ := st
  subst he
  rfl

lemma updateTimerState_expired (st : SensorState) (sc : Sched) (now endT : Int)
    (he : st.timer_end_time = some endT) (hexp : endT ≤ now) :
    updateTimerState st sc now = ⟨clearedOf st, releasedOf st sc, expiryCalls st⟩ := by
  obtain ⟨ts, td, te, ta, h, nv, a0, av⟩ := st
  subst he
  cases h <;>
    simp [updateTimerState, clearedOf, releasedOf, expiryCalls, hexp]

lemma updateTimerState_active (st : SensorState) (sc : Sched) (now endT : Int)
    (he : st.timer_end_time = some endT) (hlt : now < endT) :
    updateTimerState st sc now =
      ⟨{ st with
          native_value := max 0 ((endT - now).tdiv 60),
          attrs := { st.attrs with
            timer_active := true,
            timer_duration := st.timer_duration,
            timer_start_time := st.timer_start_time,
            timer_end_time := some endT } },
        sc, []⟩ := by
  obtain ⟨ts, td, te, ta, h, nv, a0, av⟩ := st
  subst he
  simp [updateTimerState, not_le.mpr hlt]

lemma cancelTimer_eq (st : SensorState) (sc : Sched) (now : Int) :
    cancelTimer st sc now = ⟨clearedOf st, releasedOf st sc, []⟩ := by
  obtain ⟨ts, td, te, ta, h, nv, a0, av⟩ := st
  cases h <;> rfl

lemma clearedOf_idem (st : SensorState) :
    clearedOf (clearedOf st) = clearedOf st := rfl

lemma releasedOf_clearedOf (st : SensorState) (sc : Sched) :
    releasedOf (clearedOf st) sc = sc := rfl

lemma releasedOf_next (st : SensorState) (sc : Sched) :
    (releasedOf st sc).next = sc.next := by
  cases hh : st.update_timer_handle <;> simp [releasedOf, hh, cancelHandle]

lemma releasedOf_live_nil (st : SensorState) (sc : Sched)
    (hinv : HandleInv st sc) : (releasedOf st sc).live = [] := by
  cases hh : st.update_timer_handle <;>
    simp [releasedOf, hh, cancelHandle] <;>
    simp [HandleInv, hh] at hinv <;> simp [hinv]

lemma executeTimerAction_fst (st : SensorState) (o : RemoteResult) :
    (executeTimerAction st o).1 = st := by
  cases hap : actionParams st.target_action <;> cases o <;>
    simp [executeTimerAction, hap]

lemma setTimer_nonpos (st : SensorState) (sc : Sched) (now d : Int)
    (a : String) (hd : d ≤ 0) :
    setTimer st sc d a now = cancelTimer st sc now := by
  simp [setTimer, hd]

lemma setTimer_pos (st : SensorState) (sc : Sched) (now d : Int) (a : String)
    (hd : 0 < d) :
    setTimer st sc d a now = ⟨armedOf st sc d a now, armedSched st sc, []⟩ := by
  have h1 : ¬ d ≤ 0 := not_le.mpr hd
  have h2 : ¬ (now + d * 60 ≤ now) := by omega
  have h3 : max 0 ((now + d * 60 - now).tdiv 60) = d := by
    have e1 : now + d * 60 - now = d * 60 := by ring
    obtain ⟨n, rfl⟩ := Int.eq_ofNat_of_zero_le hd.le
    rw [e1]
    have e2 : ((n : Int) * 60).tdiv 60 = n := by
      have : ((n : Int) * 60) = ((n * 60 : Nat) : Int) := by push_cast; ring
      rw [this, show ((60 : Int) = ((60 : Nat) : Int)) from rfl,
        ← Int.ofNat_tdiv]
      simp
    rw [e2]
    simp
  rw [setTimer, cancelTimer_eq]
  simp only [h1, if_false]
  rw [updateTimerState_active _ _ now (now + d * 60) rfl (by omega)]
  simp [armedOf, armedSched, async_track_time_interval, clearedOf,
    releasedOf_clearedOf, h3, releasedOf_next, hd.le]

lemma handleInv_updateTimerState (st : SensorState) (sc : Sched) (now : Int)
    (hinv : HandleInv st sc) :
    HandleInv (updateTimerState st sc now).st (updateTimerState st sc now).sc := by
  rcases hte : st.timer_end_time with _ | endT
  · rw [updateTimerState_none st sc now hte]
    exact hinv
  · by_cases hc : endT ≤ now
    · rw [updateTimerState_expired st sc now endT hte hc]
      show (releasedOf st sc).live = (clearedOf st).update_timer_handle.toList
      rw [releasedOf_live_nil st sc hinv]
      rfl
    · rw [updateTimerState_active st sc now endT hte (not_le.mp hc)]
      exact hinv

lemma handleInv_cancelTimer (st : SensorState) (sc : Sched) (now : Int)
    (hinv : HandleInv st sc) :
    HandleInv (cancelTimer st sc now).st (cancelTimer st sc now).sc := by
  rw [cancelTimer_eq]
  show (releasedOf st sc).live = (clearedOf st).update_timer_handle.toList
  rw [releasedOf_live_nil st sc hinv]
  rfl

lemma handleInv_setTimer (st : SensorState) (sc : Sched) (now d : Int)
    (a : String) (hinv : HandleInv st sc) :
    HandleInv (setTimer st sc d a now).st (setTimer st sc d a now).sc := by
  by_cases hd : d ≤ 0
  · rw [setTimer_nonpos st sc now d a hd]
    exact handleInv_cancelTimer st sc now hinv
  · rw [setTimer_pos st sc now d a (not_le.mp hd)]
    show (armedSched st sc).live = (armedOf st sc d a now).update_timer_handle.toList
    simp [armedSched, armedOf, releasedOf_live_nil st sc hinv]

lemma handleInv_willRemove (st : SensorState) (sc : Sched)
    (hinv : HandleInv st sc) :
    HandleInv (willRemoveFromHass st sc).1 (willRemoveFromHass st sc).2 := by
  cases hh : st.update_timer_handle with
  | none =>
      simp only [willRemoveFromHass, hh]
      simpa [HandleInv, hh] using hinv
  | some h =>
      have hl : sc.live = [h] := by simpa [HandleInv, hh] using hinv
      simp [willRemoveFromHass, hh, cancelHandle, hl, HandleInv]

lemma sleep_mode_updateTimerState (st : SensorState) (sc : Sched) (now : Int) :
    (updateTimerState st sc now).st.attrs.sleep_mode_active =
      st.attrs.sleep_mode_active := by
  rcases hte : st.timer_end_time with _ | endT
  · rw [updateTimerState_none st sc now hte]
    rfl
  · by_cases hc : endT ≤ now
    · rw [updateTimerState_expired st sc now endT hte hc]
      rfl
    · rw [updateTimerState_active st sc now endT hte (not_le.mp hc)]

lemma updateTimerState_calls_attrs (st : SensorState) (A : TimerAttrs)
    (sc : Sched) (now : Int) :
    (updateTimerState { st with attrs := A } sc now).calls =
      (updateTimerState st sc now).calls := by
  obtain ⟨ts, td, te, ta, h, nv, a0, av⟩ := st
  cases te with
  | none => rfl
  | some endT =>
      by_cases hc : endT ≤ now
      · cases h <;> simp [updateTimerState, hc]
      · simp [updateTimerState, hc]

lemma handleInv_sensorHandle (data : Store) (id : DeviceId) (st : SensorState)
    (sc : Sched) (now : Int) (hinv : HandleInv st sc) :
    HandleInv (sensorHandleCoordinatorUpdate data id st sc now).st
      (sensorHandleCoordinatorUpdate data id st sc now).sc := by
  rcases hd : getDevice data id with _ | p
  · simp only [sensorHandleCoordinatorUpdate, hd]
    exact hinv
  · simp only [sensorHandleCoordinatorUpdate, hd]
    exact handleInv_updateTimerState _ sc now hinv

/-- C1: for an armed timer, when a tick (or the refresh-driven
re-evaluation, which runs the same `_update_timer_state`) observes
`now >= deadline`, exactly one `setParams` call is issued reflecting the
armed target action (`turn_off` sends `{pwr: 0}`, `sleep_mode` sends
`{ac_slp: 1}`), the timer state is cleared to Idle (remaining 0, inactive,
start/end/duration cleared), the recurring tick registration is released
with no residual live registration, a subsequent tick issues no further
call, and a coordinator-refresh re-evaluation at the same instant requests
exactly the same single call. -/
theorem timer_expiry_fires_once_and_clears
    (st : SensorState) (sc : Sched) (now now' endT : Int)
    (he : st.timer_end_time = some endT) (hexp : endT ≤ now)
    (hinv : HandleInv st sc)
    (hact : st.target_action = "turn_off" ∨ st.target_action = "sleep_mode") :
    (updateTimerState st sc now).calls =
      [ApiCall.setParams
        (if st.target_action = "turn_off" then [("pwr", 0)]
         else [("ac_slp", 1)])] ∧
    IsIdleState (updateTimerState st sc now).st ∧
    (updateTimerState st sc now).st.update_timer_handle = none ∧
    (updateTimerState st sc now).sc.live = [] ∧
    (updateTimerState (updateTimerState st sc now).st
      (updateTimerState st sc now).sc now').calls = [] ∧
    (∀ data id p, getDevice data id = some p →
      (sensorHandleCoordinatorUpdate data id st sc now).calls =
        (updateTimerState st sc now).calls) := by
  have hcalls : ∀ B : TimerAttrs,
      (updateTimerState { st with attrs := B } sc now).calls =
        (updateTimerState st sc now).calls :=
    fun B => updateTimerState_calls_attrs st B sc now
  rw [updateTimerState_expired st sc now endT he hexp]
  refine ⟨?_, ?_, rfl, releasedOf_live_nil st sc hinv, ?_, ?_⟩
  · rcases hact with h | h <;> simp [expiryCalls, actionParams, h]
  · simp [clearedOf]
  · rw [updateTimerState_none _ _ now' rfl]
  · intro data id p hp
    simp only [sensorHandleCoordinatorUpdate, hp]
    rw [hcalls, updateTimerState_expired st sc now endT he hexp]

/-- C1 witness: the expiry tick of the concrete armed timer `armed1` at
its deadline issues the single `{pwr: 0}` call and clears to Idle. -/
theorem timer_expiry_fires_once_and_clears_witness :
    armed1.timer_end_time = some 300 ∧ (300 : Int) ≤ 300 ∧
    HandleInv armed1 sched1 ∧
    ((updateTimerState armed1 sched1 300).calls =
      [ApiCall.setParams
        (if armed1.target_action = "turn_off" then [("pwr", 0)]
         else [("ac_slp", 1)])] ∧
     IsIdleState (updateTimerState armed1 sched1 300).st ∧
     (updateTimerState armed1 sched1 300).sc.live = []) :=
  ⟨rfl, by decide, by decide,
    (timer_expiry_fires_once_and_clears armed1 sched1 300 301 300 rfl
      (by decide) (by decide) (Or.inl rfl)).1,
    (timer_expiry_fires_once_and_clears armed1 sched1 300 301 300 rfl
      (by decide) (by decide) (Or.inl rfl)).2.1,
    (timer_expiry_fires_once_and_clears armed1 sched1 300 301 300 rfl
      (by decide) (by decide) (Or.inl rfl)).2.2.2.1⟩

/-- C2: the expiry-time local state transition is independent of the
remote call's outcome: `tickThenExecute` yields the same entity and
scheduler state whether the spawned `_execute_timer_action` succeeds or
raises, and in either case the armed timer ends Idle with its registration
released — a failed expiry action never leaves the timer armed or the tick
repeating. -/
theorem expiry_transition_outcome_independent
    (st : SensorState) (sc : Sched) (now endT : Int) (o o' : RemoteResult)
    (he : st.timer_end_time = some endT) (hexp : endT ≤ now)
    (hinv : HandleInv st sc) :
    tickThenExecute st sc now o = tickThenExecute st sc now o' ∧
    IsIdleState (tickThenExecute st sc now o).1 ∧
    (tickThenExecute st sc now o).1.update_timer_handle = none ∧
    (tickThenExecute st sc now o).2.live = [] := by
  have h1 : ∀ oo : RemoteResult, tickThenExecute st sc now oo =
      ((updateTimerState st sc now).st, (updateTimerState st sc now).sc) := by
    intro oo
    unfold tickThenExecute
    rw [executeTimerAction_fst]
  rw [h1 o, h1 o', updateTimerState_expired st sc now endT he hexp]
  exact ⟨rfl, by simp [clearedOf], rfl, releasedOf_live_nil st sc hinv⟩

/-- C2 witness: for the concrete armed timer `armed1` expiring at its
deadline, a failed remote call and a successful one produce the identical
local state, which is Idle with no live registration. -/
theorem expiry_transition_outcome_independent_witness :
    armed1.timer_end_time = some 300 ∧
    (tickThenExecute armed1 sched1 300 (RemoteResult.error "boom") =
      tickThenExecute armed1 sched1 300 RemoteResult.ok ∧
     IsIdleState (tickThenExecute armed1 sched1 300 (RemoteResult.error "boom")).1 ∧
     (tickThenExecute armed1 sched1 300 (RemoteResult.error "boom")).2.live = []) :=
  ⟨rfl,
    (expiry_transition_outcome_independent armed1 sched1 300 300
      (RemoteResult.error "boom") RemoteResult.ok rfl (by decide) (by decide)).1,
    (expiry_transition_outcome_independent armed1 sched1 300 300
      (RemoteResult.error "boom") RemoteResult.ok rfl (by decide) (by decide)).2.1,
    (expiry_transition_outcome_independent armed1 sched1 300 300
      (RemoteResult.error "boom") RemoteResult.ok rfl (by decide) (by decide)).2.2.2⟩

/-- C7: before the deadline, the published remaining-time value equals
`floor((deadline - now) in minutes)` floored at 0 (the code's
truncated-toward-zero `int()` agrees with the floor on the positive
difference), it is never negative, and the timer stays active. -/
theorem remaining_minutes_floor_nonneg
    (st : SensorState) (sc : Sched) (now endT : Int)
    (he : st.timer_end_time = some endT) (hlt : now < endT) :
    (updateTimerState st sc now).st.native_value =
      max 0 ((endT - now).fdiv 60) ∧
    0 ≤ (updateTimerState st sc now).st.native_value ∧
    (updateTimerState st sc now).st.attrs.timer_active = true := by
  rw [updateTimerState_active st sc now endT he hlt]
  refine ⟨?_, ?_, rfl⟩
  · show max 0 ((endT - now).tdiv 60) = max 0 ((endT - now).fdiv 60)
    have hpos : (0 : Int) ≤ endT - now := by omega
    obtain ⟨n, hn⟩ := Int.eq_ofNat_of_zero_le hpos
    rw [hn, show ((60 : Int) = ((60 : Nat) : Int)) from rfl,
      ← Int.ofNat_tdiv, ← Int.ofNat_fdiv]
  · show (0 : Int) ≤ max 0 ((endT - now).tdiv 60)
    exact le_max_left 0 _

/-- C7 witness: one minute into the five-minute timer `armed1`, the
published value is 4 = floor(240 seconds / 60) and it is non-negative. -/
theorem remaining_minutes_floor_nonneg_witness :
    armed1.timer_end_time = some 300 ∧ (60 : Int) < 300 ∧
    ((updateTimerState armed1 sched1 60).st.native_value =
      max 0 (((300 : Int) - 60).fdiv 60) ∧
     0 ≤ (updateTimerState armed1 sched1 60).st.native_value) :=
  ⟨rfl, by decide,
    (remaining_minutes_floor_nonneg armed1 sched1 60 300 rfl (by decide)).1,
    (remaining_minutes_floor_nonneg armed1 sched1 60 300 rfl (by decide)).2.1⟩

/-- C3 counterexample: `async_set_timer` performs no range validation.
Arming with duration 481 (outside [0, 480]) from the fresh idle state is
not rejected: the timer state is mutated (deadline set, timer marked
active, a new registration created) and no failure is signalled. -/
theorem set_timer_out_of_range_not_rejected_cex :
    (setTimer idle0 sched0 481 "turn_off" 0).st ≠ idle0 ∧
    (setTimer idle0 sched0 481 "turn_off" 0).st.timer_end_time =
      some 28860 ∧
    (setTimer idle0 sched0 481 "turn_off" 0).st.attrs.timer_active = true ∧
    (setTimer idle0 sched0 481 "turn_off" 0).sc.live = [0] := by
  decide

/-- C3 amended: the code performs no range validation on
`durationMinutes`. A duration `<= 0` (below the range) is treated as a
cancellation with no failure signalled — which mutates state when a timer
was armed — and a duration above 480 arms the timer normally (deadline set,
duration recorded, timer active) with no failure result. -/
theorem set_timer_no_range_validation
    (st : SensorState) (sc : Sched) (now d : Int) (a : String) :
    (d ≤ 0 → setTimer st sc d a now = cancelTimer st sc now) ∧
    (480 < d →
      (setTimer st sc d a now).st.timer_end_time = some (now + d * 60) ∧
      (setTimer st sc d a now).st.timer_duration = some d ∧
      (setTimer st sc d a now).st.attrs.timer_active = true ∧
      (setTimer st sc d a now).calls = []) := by
  constructor
  · intro hd
    exact setTimer_nonpos st sc now d a hd
  · intro hd
    rw [setTimer_pos st sc now d a (by omega)]
    exact ⟨rfl, rfl, rfl, rfl⟩

/-- C3 amended witness: duration 481 arms (deadline 28860 seconds), and
duration -5 acts as a cancellation. -/
theorem set_timer_no_range_validation_witness :
    (480 : Int) < 481 ∧
    (setTimer idle0 sched0 481 "turn_off" 0).st.timer_end_time =
      some ((0 : Int) + 481 * 60) ∧
    (-5 : Int) ≤ 0 ∧
    setTimer idle0 sched0 (-5) "turn_off" 0 = cancelTimer idle0 sched0 0 :=
  ⟨by decide,
    ((set_timer_no_range_validation idle0 sched0 0 481 "turn_off").2
      (by decide)).1,
    by decide,
    (set_timer_no_range_validation idle0 sched0 0 (-5) "turn_off").1
      (by decide)⟩

/-- C4: arming with duration 0 has exactly the net effect of `cancel()`:
the same resulting state, scheduler and (absent) remote calls, leaving the
timer Idle with no registration handle and no new registration created
(the fresh-handle counter is unchanged). -/
theorem arm_zero_eq_cancel
    (st : SensorState) (sc : Sched) (now : Int) (a : String) :
    setTimer st sc 0 a now = cancelTimer st sc now ∧
    IsIdleState (setTimer st sc 0 a now).st ∧
    (setTimer st sc 0 a now).st.update_timer_handle = none ∧
    (setTimer st sc 0 a now).sc.next = sc.next := by
  have h := setTimer_nonpos st sc now 0 a le_rfl
  refine ⟨h, ?_, ?_, ?_⟩ <;> rw [h, cancelTimer_eq] <;>
    simp [clearedOf, releasedOf_next]

/-- C5: `cancel()` is idempotent — cancelling twice in a row yields the
same resulting state and scheduler as cancelling once (the second call
releases nothing) — and cancelling a fully idle timer is a no-op. -/
theorem cancel_idempotent
    (st : SensorState) (sc : Sched) (now now' : Int) :
    cancelTimer (cancelTimer st sc now).st (cancelTimer st sc now).sc now' =
      cancelTimer st sc now ∧
    (st = clearedOf st → cancelTimer st sc now' = ⟨st, sc, []⟩) := by
  constructor
  · simp only [cancelTimer_eq, clearedOf_idem, releasedOf_clearedOf]
  · intro h
    have hh : st.update_timer_handle = none := by rw [h]; rfl
    have hrel : releasedOf st sc = sc := by simp [releasedOf, hh]
    rw [cancelTimer_eq st sc now', hrel, ← h]

/-- C5 witness: cancelling the armed timer `armed1` twice equals cancelling
once, and cancelling the already-idle `idle0` is a no-op. -/
theorem cancel_idempotent_witness :
    cancelTimer (cancelTimer armed1 sched1 10).st
      (cancelTimer armed1 sched1 10).sc 70 =
      cancelTimer armed1 sched1 10 ∧
    idle0 = clearedOf idle0 ∧
    cancelTimer idle0 sched0 70 = ⟨idle0, sched0, []⟩ :=
  ⟨(cancel_idempotent armed1 sched1 10 70).1,
    by decide,
    (cancel_idempotent idle0 sched0 10 70).2 (by decide)⟩

/-- C10: for every duration `<= 0` (including strictly negative values)
and any action, arming completes without signalling an error and its net
effect is exactly `cancel()`: state cleared to Idle, registration
released, and no new registration created (fresh-handle counter
unchanged). -/
theorem arm_nonpos_acts_as_cancel
    (st : SensorState) (sc : Sched) (now d : Int) (a : String)
    (hd : d ≤ 0) :
    setTimer st sc d a now = cancelTimer st sc now ∧
    IsIdleState (setTimer st sc d a now).st ∧
    (setTimer st sc d a now).st.update_timer_handle = none ∧
    (setTimer st sc d a now).sc.next = sc.next := by
  have h := setTimer_nonpos st sc now d a hd
  refine ⟨h, ?_, ?_, ?_⟩ <;> rw [h, cancelTimer_eq] <;>
    simp [clearedOf, releasedOf_next]

/-- C10 witness: arming `armed1` with duration -3 equals cancelling it. -/
theorem arm_nonpos_acts_as_cancel_witness :
    (-3 : Int) ≤ 0 ∧
    setTimer armed1 sched1 (-3) "turn_off" 400 =
      cancelTimer armed1 sched1 400 :=
  ⟨by decide,
    (arm_nonpos_acts_as_cancel armed1 sched1 400 (-3) "turn_off"
      (by decide)).1⟩

/-- C6: the single-live-handle invariant (the scheduler's live
registrations are exactly the state's stored handle, hence at most one) is
preserved by every operation of the timer engine — tick, cancel, arm
(which releases the previous handle via the implicit cancel before
creating the new registration), entity teardown, and the coordinator
update — so two live handles never coexist: after any arm the live set has
length at most one. -/
theorem single_live_handle_invariant
    (st : SensorState) (sc : Sched) (now d : Int) (a : String)
    (data : Store) (id : DeviceId) (hinv : HandleInv st sc) :
    HandleInv (updateTimerState st sc now).st (updateTimerState st sc now).sc ∧
    HandleInv (cancelTimer st sc now).st (cancelTimer st sc now).sc ∧
    HandleInv (setTimer st sc d a now).st (setTimer st sc d a now).sc ∧
    HandleInv (willRemoveFromHass st sc).1 (willRemoveFromHass st sc).2 ∧
    HandleInv (sensorHandleCoordinatorUpdate data id st sc now).st
      (sensorHandleCoordinatorUpdate data id st sc now).sc ∧
    (setTimer st sc d a now).sc.live.length ≤ 1 := by
  refine ⟨handleInv_updateTimerState st sc now hinv,
    handleInv_cancelTimer st sc now hinv,
    handleInv_setTimer st sc now d a hinv,
    handleInv_willRemove st sc hinv,
    handleInv_sensorHandle data id st sc now hinv, ?_⟩
  rw [handleInv_setTimer st sc now d a hinv]
  cases (setTimer st sc d a now).st.update_timer_handle <;> simp

/-- C6 witness: from the armed state `armed1` (one live handle),
re-arming with a new duration preserves the invariant: exactly the new
handle is live. -/
theorem single_live_handle_invariant_witness :
    HandleInv armed1 sched1 ∧
    (HandleInv (setTimer armed1 sched1 7 "sleep_mode" 10).st
      (setTimer armed1 sched1 7 "sleep_mode" 10).sc ∧
     (setTimer armed1 sched1 7 "sleep_mode" 10).sc.live.length ≤ 1) :=
  ⟨by decide,
    (single_live_handle_invariant armed1 sched1 10 7 "sleep_mode"
      store1 "dev1" (by decide)).2.2.1,
    (single_live_handle_invariant armed1 sched1 10 7 "sleep_mode"
      store1 "dev1" (by decide)).2.2.2.2.2⟩

/-- C8: on a snapshot-refresh notification, each of the sensor, switch and
number observers looks up only its own device id in the store: if absent
(or the store is empty/None), it marks itself unavailable with no other
field updated that cycle; if present, it recomputes its derived values
from the device params (sleep-mode flag from `ac_slp`) and marks itself
available; and the result depends only on the observer's own store entry,
independent of other devices. -/
theorem observer_update_availability
    (data data' : Store) (id : DeviceId) (st : SensorState) (sc : Sched)
    (now : Int) (stw : SwitchState) (stn : NumberState) :
    (getDevice data id = none →
      sensorHandleCoordinatorUpdate data id st sc now =
        ⟨{ st with available := false }, sc, []⟩ ∧
      switchHandleCoordinatorUpdate data id stw =
        { stw with available := false } ∧
      numberHandleCoordinatorUpdate data id stn =
        { stn with available := false }) ∧
    (∀ p, getDevice data id = some p →
      (sensorHandleCoordinatorUpdate data id st sc now).st.available = true ∧
      (sensorHandleCoordinatorUpdate data id st sc now).st.attrs.sleep_mode_active =
        (getParam p "ac_slp" 0 != 0) ∧
      switchHandleCoordinatorUpdate data id stw =
        { is_on := getParam p "ac_slp" 0 != 0, available := true } ∧
      numberHandleCoordinatorUpdate data id stn =
        { stn with available := true }) ∧
    (getDevice data' id = getDevice data id →
      sensorHandleCoordinatorUpdate data' id st sc now =
        sensorHandleCoordinatorUpdate data id st sc now ∧
      switchHandleCoordinatorUpdate data' id stw =
        switchHandleCoordinatorUpdate data id stw ∧
      numberHandleCoordinatorUpdate data' id stn =
        numberHandleCoordinatorUpdate data id stn) := by
  refine ⟨?_, ?_, ?_⟩
  · intro h
    refine ⟨?_, ?_, ?_⟩ <;>
      simp [sensorHandleCoordinatorUpdate, switchHandleCoordinatorUpdate,
        numberHandleCoordinatorUpdate, h]
  · intro p hp
    refine ⟨?_, ?_, ?_, ?_⟩
    · simp [sensorHandleCoordinatorUpdate, hp]
    · simp only [sensorHandleCoordinatorUpdate, hp]
      show (updateTimerState _ sc now).st.attrs.sleep_mode_active = _
      rw [sleep_mode_updateTimerState]
    · simp [switchHandleCoordinatorUpdate, hp]
    · simp [numberHandleCoordinatorUpdate, hp]
  · intro h
    unfold sensorHandleCoordinatorUpdate switchHandleCoordinatorUpdate
      numberHandleCoordinatorUpdate
    rw [h]
    exact ⟨rfl, rfl, rfl⟩

/-- C8 witness: in the concrete store `store1` (only `dev1` present), the
switch observer for absent `dev2` goes unavailable with its cached value
untouched, and the observer for `dev1` recomputes sleep mode on and goes
available. -/
theorem observer_update_availability_witness :
    getDevice store1 "dev2" = none ∧
    switchHandleCoordinatorUpdate store1 "dev2" ⟨true, true⟩ =
      { is_on := true, available := false } ∧
    getDevice store1 "dev1" = some [("ac_slp", 1)] ∧
    switchHandleCoordinatorUpdate store1 "dev1" ⟨false, false⟩ =
      { is_on := true, available := true } ∧
    numberHandleCoordinatorUpdate store1 "dev1" ⟨0, false⟩ =
      { native_value := 0, available := true } :=
  ⟨by decide,
    ((observer_update_availability store1 store1 "dev2" idle0 sched0 0
      ⟨true, true⟩ ⟨0, false⟩).1 (by decide)).2.1,
    by decide,
    (((observer_update_availability store1 store1 "dev1" idle0 sched0 0
      ⟨false, false⟩ ⟨0, false⟩).2.1) [("ac_slp", 1)] (by decide)).2.2.1,
    (((observer_update_availability store1 store1 "dev1" idle0 sched0 0
      ⟨false, false⟩ ⟨0, false⟩).2.1) [("ac_slp", 1)] (by decide)).2.2.2⟩

/-- C9 counterexample: teardown is not equivalent to `cancel()`.  From the
armed state `armed1`, `async_will_remove_from_hass` leaves the deadline
set (`some 300`) while `async_cancel_timer` clears it to `none`, so the
resulting timer states differ. -/
theorem teardown_not_eq_cancel_cex :
    (willRemoveFromHass armed1 sched1).1 ≠
      (cancelTimer armed1 sched1 300).st ∧
    (willRemoveFromHass armed1 sched1).1.timer_end_time = some 300 ∧
    (cancelTimer armed1 sched1 300).st.timer_end_time = none := by
  decide

/-- C9 amended: teardown releases the recurring registration exactly as
`cancel()` does (identical resulting scheduler, so no orphaned callback —
under the single-handle invariant no registration survives), but unlike
`cancel()` it leaves every other field of the timer state unchanged
(only the stored handle is dropped), so it does not clear the timer state
to Idle. -/
theorem teardown_releases_handle_only
    (st : SensorState) (sc : Sched) (now : Int) :
    (willRemoveFromHass st sc).2 = (cancelTimer st sc now).sc ∧
    (willRemoveFromHass st sc).1 = { st with update_timer_handle := none } ∧
    (HandleInv st sc → (willRemoveFromHass st sc).2.live = []) := by
  obtain ⟨ts, td, te, ta, h, nv, a0, av⟩ := st
  refine ⟨?_, ?_, ?_⟩
  · rw [cancelTimer_eq]
    cases h <;> rfl
  · cases h <;> rfl
  · intro hinv
    cases h with
    | none => simpa [willRemoveFromHass] using hinv
    | some hh =>
        have hl : _ = [hh] := hinv
        simp [willRemoveFromHass, cancelHandle, hl]

/-- C9 amended witness: tearing down the armed `armed1` empties the live
registrations yet leaves the timer fields set (per the amended claim, the
resulting state only drops the handle). -/
theorem teardown_releases_handle_only_witness :
    HandleInv armed1 sched1 ∧
    (willRemoveFromHass armed1 sched1).2.live = [] ∧
    (willRemoveFromHass armed1 sched1).1 =
      { armed1 with update_timer_handle := none } :=
  ⟨by decide,
    (teardown_releases_handle_only armed1 sched1 0).2.2 (by decide),
    (teardown_releases_handle_only armed1 sched1 0).2.1⟩

end Tornado
